import Mathlib

/-!
Shallow embedding of the explosion/reassembly particle state machine of
`src/main.js` (the `yz-christmas-tree` repository), together with the
geometric sampling helpers it uses.

Numeric values are modelled as real numbers.  Where a JavaScript
computation can produce a non-finite value (`NaN` / `Infinity`) — this
happens exactly where the source divides — the affected function is
embedded over `Option ℝ`: `some x` is a finite value, `none` is any
non-finite value.  The JS arithmetic operations are lifted accordingly:
every arithmetic operation on a non-finite operand yields a non-finite
result, `a / 0` is non-finite (`NaN` when `a = 0`, `±Infinity`
otherwise), and `Math.sqrt` of a negative number is `NaN`.

Randomness is embedded by passing the raw `Math.random()` draws (reals
in `[0,1)`) as explicit arguments, one per call site, in source order.
-/

open Real

namespace YZTree

/-- 3D vector, as `THREE.Vector3` restricted to the fields the animation
logic reads and writes. -/
structure Vec3 where
  x : ℝ
  y : ℝ
  z : ℝ


/-- 2D vector, as `THREE.Vector2`. -/
structure Vec2 where
  x : ℝ
  y : ℝ


/-- Euclidean distance between two 3D points — `THREE.Vector3.distanceTo`. -/
noncomputable def dist3 (a b : Vec3) : ℝ :=
  Real.sqrt ((a.x - b.x) ^ 2 + (a.y - b.y) ^ 2 + (a.z - b.z) ^ 2)

/-- Componentwise linear interpolation — `THREE.Vector3.lerp(target, alpha)`:
`v + (target - v) * alpha` on each component. -/
def lerp3 (v target : Vec3) (alpha : ℝ) : Vec3 :=
  ⟨v.x + (target.x - v.x) * alpha,
   v.y + (target.y - v.y) * alpha,
   v.z + (target.z - v.z) * alpha⟩

/-- `THREE.Vector3.multiplyScalar`. -/
def scale3 (s : ℝ) (v : Vec3) : Vec3 := ⟨s * v.x, s * v.y, s * v.z⟩

-- ## JS floating-point carrier
-- `some x` = the finite value `x`; `none` = a non-finite value (NaN or ±Infinity).

/-- JS addition lifted to the finiteness-tracking carrier. -/
def jadd : Option ℝ → Option ℝ → Option ℝ
  | some a, some b => some (a + b)
  | _, _ => none

/-- JS subtraction lifted to the finiteness-tracking carrier. -/
def jsub : Option ℝ → Option ℝ → Option ℝ
  | some a, some b => some (a - b)
  | _, _ => none

/-- JS multiplication lifted to the finiteness-tracking carrier.  A
non-finite operand always yields a non-finite result (`NaN * x = NaN`,
`Infinity * 0 = NaN`, `Infinity * x = ±Infinity`). -/
def jmul : Option ℝ → Option ℝ → Option ℝ
  | some a, some b => some (a * b)
  | _, _ => none

/-- JS division lifted to the finiteness-tracking carrier.  Division by
zero is non-finite in JS: `0 / 0 = NaN`, `a / 0 = ±Infinity` for `a ≠ 0`. -/
noncomputable def jdiv : Option ℝ → Option ℝ → Option ℝ
  | some a, some b => if b = 0 then none else some (a / b)
  | _, _ => none

/-- `Math.sqrt` lifted: the square root of a negative number is `NaN`. -/
noncomputable def jsqrt : Option ℝ → Option ℝ
  | some a => if a < 0 then none else some (Real.sqrt a)
  | none => none

/-- `Math.cos` lifted (finite input gives a finite output). -/
noncomputable def jcos : Option ℝ → Option ℝ
  | some a => some (Real.cos a)
  | none => none

/-- `Math.sin` lifted (finite input gives a finite output). -/
noncomputable def jsin : Option ℝ → Option ℝ
  | some a => some (Real.sin a)
  | none => none

-- ## Sampler

/-- `sampleTreePosition()` of `src/main.js` (lines 1061–1083), embedded
over the finiteness-tracking carrier.  `treeHeight` and `treeRadius` are
`CONFIG.treeHeight` / `CONFIG.treeRadius`; `u`, `t`, `v` are the three
`Math.random()` draws in source order.  Returns the components
`(x, y, z)` of the produced `THREE.Vector3`. -/
noncomputable def sampleTreePosition (treeHeight treeRadius u t v : ℝ) :
    Option ℝ × Option ℝ × Option ℝ :=
  let heightFraction := jsqrt (some u)
  let height := jmul heightFraction (some treeHeight)
  let radiusAtHeight := jmul (jdiv height (some treeHeight)) (some treeRadius)
  let theta := jmul (jmul (some t) (some π)) (some 2)
  let r := jmul radiusAtHeight (jadd (some 0.6) (jmul (some v) (some 0.4)))
  let x := jmul r (jcos theta)
  let z := jmul r (jsin theta)
  let y := jsub (jdiv (some treeHeight) (some 2)) height
  (x, y, z)

/-- One loop iteration of `generateExplosionTargets` (`src/main.js`
lines 1098–1110): the point pushed for the draw triple
`d = (thetaDraw, phiDraw, rDraw)`, each draw in `[0,1)`.  The
computation involves no division and no square root of a negative
number, so it is embedded directly over `ℝ`. -/
noncomputable def explosionTargetPoint (innerR outerR : ℝ) (explosionCenter : Vec3)
    (d : ℝ × ℝ × ℝ) : Vec3 :=
  let theta := d.1 * π * 2
  let phi := Real.arccos (2 * d.2.1 - 1)
  let r := innerR + d.2.2 * (outerR - innerR)
  ⟨explosionCenter.x + r * Real.sin phi * Real.cos theta,
   explosionCenter.y + r * Real.sin phi * Real.sin theta,
   explosionCenter.z + r * Real.cos phi⟩

/-- `generateExplosionTargets(count, center)` of `src/main.js`
(lines 1086–1113).  `innerR`/`outerR` are `CONFIG.explosionInnerRadius`
/ `CONFIG.explosionOuterRadius`, `(ox, oy, oz)` the configured
`explosionOffset{X,Y,Z}`, and `draws i` the random triple consumed by
loop iteration `i`. -/
noncomputable def generateExplosionTargets (innerR outerR ox oy oz : ℝ)
    (center : Vec3) (count : ℕ) (draws : ℕ → ℝ × ℝ × ℝ) : List Vec3 :=
  let explosionCenter : Vec3 := ⟨center.x + ox, center.y + oy, center.z + oz⟩
  (List.range count).map fun i => explosionTargetPoint innerR outerR explosionCenter (draws i)

-- ## Data model

/-- The process-wide animation state (`state` in `src/main.js`). -/
inductive AnimState where
  | IDLE
  | EXPLODING
  | RETURNING
  deriving DecidableEq

/-- The configuration fields of `CONFIG` read by the animation loop and
the interaction handler. -/
structure Config where
  animationSpeed : ℝ
  idleFloatSpeed : ℝ
  idleFloatAmount : ℝ
  reassembleOnClick : Bool
  parallaxEnabled : Bool
  parallaxStrengthX : ℝ
  parallaxStrengthY : ℝ
  parallaxPositionStrengthX : ℝ
  parallaxPositionStrengthY : ℝ
  explodedParallaxEnabled : Bool
  explodedParallaxStrengthX : ℝ
  explodedParallaxStrengthY : ℝ
  explodedParallaxStrength : ℝ
  /-- `showcaseImagesLoaded && showcaseTextures.length > 0` at trigger time. -/
  hasShowcaseImages : Bool

/-- One animated mesh together with the simulation fields the loop keeps
in `mesh.userData` (`src/main.js` lines 1142–1156). -/
structure Particle where
  position : Vec3
  rotation : Vec3
  originalPos : Vec3
  explosionTarget : Vec3
  rotSpeed : Vec3
  individualParallaxShift : Vec3
  baseParallaxSensitivity : ℝ

/-- The module-level mutable state shared by `animate`,
`triggerExplosion` and the timer callbacks.  Timers are modelled
explicitly: `returnTimer` is the variable of the same name (the id last
stored in it, if any), `liveHoldTimers` is the set of hold timers that
are currently armed in the scheduler (armed, not yet fired, not yet
cancelled), `liveShowTimers` the same for the showcase reveal delay
timers, and `nextTimerId` a fresh-id counter. -/
structure World where
  state : AnimState
  particles : List Particle
  testParticles : List Particle
  returnTimer : Option ℕ
  liveHoldTimers : List ℕ
  liveShowTimers : List ℕ
  nextTimerId : ℕ
  showcaseBoxShouldShow : Bool

-- ## Interaction: triggerExplosion and the timers

/-- `if (returnTimer) { clearTimeout(returnTimer); returnTimer = null; }`
(`src/main.js` lines 2466–2469 and 2484–2487). -/
def clearReturnTimer (w : World) : World :=
  match w.returnTimer with
  | some id => { w with liveHoldTimers := w.liveHoldTimers.erase id, returnTimer := none }
  | none => w

/-- Arming `returnTimer = setTimeout(..., CONFIG.holdDuration)`
(`src/main.js` lines 2510–2516): a fresh timer id is scheduled and
stored in `returnTimer`. -/
def armReturnTimer (w : World) : World :=
  { w with returnTimer := some w.nextTimerId,
           liveHoldTimers := w.liveHoldTimers ++ [w.nextTimerId],
           nextTimerId := w.nextTimerId + 1 }

/-- Arming the anonymous showcase-reveal `setTimeout(..., CONFIG.imageDelay)`
(`src/main.js` lines 2503–2507). -/
def armShowTimer (w : World) : World :=
  { w with liveShowTimers := w.liveShowTimers ++ [w.nextTimerId],
           nextTimerId := w.nextTimerId + 1 }

/-- The hold-timer callback (`src/main.js` lines 2510–2516) firing for
timer `id`.  A timer fires only while it is still armed; firing removes
it from the scheduler and runs the callback body. -/
def fireHoldTimer (id : ℕ) (w : World) : World :=
  if id ∈ w.liveHoldTimers then
    { w with liveHoldTimers := w.liveHoldTimers.erase id,
             showcaseBoxShouldShow := false,
             state := AnimState.RETURNING,
             returnTimer := none }
  else w

/-- The showcase-reveal callback (`src/main.js` lines 2503–2507) firing
for timer `id`: it sets the visibility flag only if the state is still
`EXPLODING` at fire time. -/
def fireShowTimer (id : ℕ) (w : World) : World :=
  if id ∈ w.liveShowTimers then
    { w with liveShowTimers := w.liveShowTimers.erase id,
             showcaseBoxShouldShow :=
               if w.state = AnimState.EXPLODING then true else w.showcaseBoxShouldShow }
  else w

/-- Resetting the individual parallax shifts
(`particles.forEach(p => p.userData.individualParallaxShift.set(0, 0, 0))`,
`src/main.js` lines 2493–2495). -/
def resetParallaxShifts (ps : List Particle) : List Particle :=
  ps.map fun p => { p with individualParallaxShift := ⟨0, 0, 0⟩ }

/-- `triggerExplosion(event)` of `src/main.js` (lines 2450–2517).
`onGui` models `event.target.closest(.dg)` being non-null (a click on
the dat.GUI panel, ignored outright). -/
def triggerExplosion (cfg : Config) (onGui : Bool) (w : World) : World :=
  if onGui then w
  else if w.state = AnimState.EXPLODING ∧ cfg.reassembleOnClick then
    let w1 := clearReturnTimer w
    { w1 with showcaseBoxShouldShow := false, state := AnimState.RETURNING }
  else if w.state ≠ AnimState.IDLE ∧ w.state ≠ AnimState.RETURNING then w
  else
    let w1 := clearReturnTimer w
    let w2 := { w1 with state := AnimState.EXPLODING,
                        particles := resetParallaxShifts w1.particles }
    let w3 := if cfg.hasShowcaseImages then armShowTimer w2 else w2
    armReturnTimer w3

-- ## Per-frame group parallax target

/-- The group parallax target computation of `animate`
(`src/main.js` lines 2215–2230): from the current state and the
normalized mouse position, the target rotation and target position for
the whole particle group, before the consumer's exponential smoothing. -/
def computeGroupParallaxTarget (cfg : Config) (state : AnimState) (mouse : Vec2) :
    Vec2 × Vec2 :=
  let isExploding := state = AnimState.EXPLODING
  let parallaxActive :=
    if isExploding then cfg.explodedParallaxEnabled else cfg.parallaxEnabled
  if parallaxActive then
    let parallaxX := if isExploding then cfg.explodedParallaxStrengthX else cfg.parallaxStrengthX
    let parallaxY := if isExploding then cfg.explodedParallaxStrengthY else cfg.parallaxStrengthY
    (⟨mouse.y * parallaxX, mouse.x * parallaxY⟩,
     ⟨mouse.x * cfg.parallaxPositionStrengthX, mouse.y * cfg.parallaxPositionStrengthY⟩)
  else
    (⟨0, 0⟩, ⟨0, 0⟩)

-- ## Per-frame particle update and state transition

/-- The per-particle body of the `particles.forEach((p, index) => ...)`
loop in `animate` (`src/main.js` lines 2309–2367; the `testParticles`
loop at lines 2370–2428 is textually identical).  `time` is the frame
timestamp and `index` the particle's position in its own array. -/
noncomputable def stepParticle (cfg : Config) (state : AnimState) (time : ℝ) (mouse : Vec2)
    (index : ℕ) (p : Particle) : Particle :=
  let p := { p with rotation := ⟨p.rotation.x + p.rotSpeed.x,
                                 p.rotation.y + p.rotSpeed.y,
                                 p.rotation.z + p.rotSpeed.z⟩ }
  match state with
  | AnimState.IDLE =>
      let floatOffset :=
        Real.sin (time * cfg.idleFloatSpeed + (index : ℝ) * 0.1) * cfg.idleFloatAmount
      { p with position := ⟨p.originalPos.x, p.originalPos.y + floatOffset, p.originalPos.z⟩ }
  | AnimState.EXPLODING =>
      let shift := p.individualParallaxShift
      let shift :=
        if cfg.explodedParallaxEnabled then
          let parallaxX := mouse.x * cfg.explodedParallaxStrength * p.baseParallaxSensitivity
          let parallaxY := mouse.y * cfg.explodedParallaxStrength * p.baseParallaxSensitivity
          ⟨shift.x + (parallaxX - shift.x) * 0.08,
           shift.y + (parallaxY - shift.y) * 0.08,
           shift.z⟩
        else
          ⟨shift.x * 0.95, shift.y * 0.95, shift.z⟩
      let targetX := p.explosionTarget.x + shift.x
      let targetY := p.explosionTarget.y + shift.y
      let targetZ := p.explosionTarget.z
      let pos := p.position
      let pos : Vec3 := ⟨pos.x + (targetX - pos.x) * cfg.animationSpeed,
                         pos.y + (targetY - pos.y) * cfg.animationSpeed,
                         pos.z + (targetZ - pos.z) * cfg.animationSpeed⟩
      let floatOffset :=
        Real.sin (time * cfg.idleFloatSpeed * 2 + (index : ℝ) * 0.1) * cfg.idleFloatAmount
      let pos : Vec3 := ⟨pos.x + Real.sin (time * 0.001 + (index : ℝ)) * 0.01,
                         pos.y + floatOffset,
                         pos.z + Real.cos (time * 0.001 + (index : ℝ)) * 0.01⟩
      { p with position := pos,
               individualParallaxShift := shift,
               rotation := ⟨p.rotation.x + 0.02, p.rotation.y + 0.01, p.rotation.z⟩ }
  | AnimState.RETURNING =>
      { p with position := lerp3 p.position p.originalPos cfg.animationSpeed,
               individualParallaxShift := scale3 0.95 p.individualParallaxShift }

/-- `allReturned` as accumulated by the two particle loops: it starts
`true` and is set to `false` whenever a particle updated in the
`RETURNING` branch is left farther than `0.1` from its
`originalPos` (`src/main.js` lines 2306, 2361–2365, 2422–2426). -/
def allReturnedAfter (state : AnimState) (updated : List Particle) : Prop :=
  ∀ p ∈ updated, state = AnimState.RETURNING → dist3 p.position p.originalPos ≤ 0.1

open Classical in
/-- The particle phase of one `animate()` frame (`src/main.js` lines
2306–2434): both particle loops followed by the `RETURNING → IDLE`
convergence transition. -/
noncomputable def frameParticlePhase (cfg : Config) (time : ℝ) (mouse : Vec2)
    (w : World) : World :=
  let ps := w.particles.mapIdx fun i p => stepParticle cfg w.state time mouse i p
  let ts := w.testParticles.mapIdx fun i p => stepParticle cfg w.state time mouse i p
  let newState :=
    if w.state = AnimState.RETURNING ∧ allReturnedAfter w.state (ps ++ ts) then
      AnimState.IDLE
    else w.state
  { w with particles := ps, testParticles := ts, state := newState }

-- ## Particle pool construction

/-- The simulation-relevant fields assigned to a freshly created tree
particle (`src/main.js` lines 1338–1358): the sampled resting position
and the explosion target taken from the pre-generated array.  The array
access `explosionTargets[explosionTargetIndex++]` is modelled by `List`
lookup (`none` = JS `undefined`, an out-of-range access). -/
structure PooledParticle where
  originalPos : Option ℝ × Option ℝ × Option ℝ
  explosionTarget : Option Vec3

/-- The inner `for (let i = 0; i < fullDef.count; i++)` creation loop of
`rebuildTreeParticles` (`src/main.js` lines 1338–1362), creating `count`
particles whose running target indices start at `start`.  `posDraws i`
supplies the three `Math.random()` draws of `sampleTreePosition` for the
particle with running index `i`. -/
noncomputable def createCountParticles (treeHeight treeRadius : ℝ)
    (targets : List Vec3) (posDraws : ℕ → ℝ × ℝ × ℝ) (start count : ℕ) :
    List PooledParticle :=
  (List.range count).map fun j =>
    { originalPos :=
        sampleTreePosition treeHeight treeRadius
          (posDraws (start + j)).1 (posDraws (start + j)).2.1 (posDraws (start + j)).2.2,
      explosionTarget := targets[start + j]? }

/-- The `CONFIG.objects.forEach(objectDef => ...)` creation loop of
`rebuildTreeParticles` (`src/main.js` lines 1333–1363; the initial build
at lines 1130–1161 is identical): for each object definition's `count`,
create that many particles, consuming explosion targets through the
single running index `explosionTargetIndex`. -/
noncomputable def createFromDefs (treeHeight treeRadius : ℝ) (targets : List Vec3)
    (posDraws : ℕ → ℝ × ℝ × ℝ) : List ℕ → ℕ → List PooledParticle
  | [], _ => []
  | c :: rest, idx =>
      createCountParticles treeHeight treeRadius targets posDraws idx c ++
        createFromDefs treeHeight treeRadius targets posDraws rest (idx + c)

/-- `rebuildTreeParticles()` of `src/main.js` (lines 1314–1363),
restricted to the simulation fields: the total particle count is the sum
of the definitions' counts, exactly that many explosion targets are
pre-generated, and the particles are created consuming them in order.
`counts` carries each object definition's `count`, `targetDraws` the
random triples of `generateExplosionTargets`, `posDraws` the random
triples of the `sampleTreePosition` calls. -/
noncomputable def rebuildTreeParticles (treeHeight treeRadius innerR outerR ox oy oz : ℝ)
    (center : Vec3) (counts : List ℕ) (targetDraws : ℕ → ℝ × ℝ × ℝ)
    (posDraws : ℕ → ℝ × ℝ × ℝ) : List PooledParticle :=
  let totalParticleCount := counts.sum
  let targets := generateExplosionTargets innerR outerR ox oy oz center totalParticleCount targetDraws
  createFromDefs treeHeight treeRadius targets posDraws counts 0

-- ## Reachability invariant for the timer model

/-- Invariant of the interaction code: the armed hold timers are exactly
the one currently stored in `returnTimer` (the code never overwrites
`returnTimer` without first cancelling it), and every armed id was
allocated below the fresh-id counter. -/
def TimerInv (w : World) : Prop :=
  w.liveHoldTimers = w.returnTimer.toList ∧ ∀ id ∈ w.liveHoldTimers, id < w.nextTimerId

-- ## Concrete fixtures used by witnesses and counterexamples

/-- A particle resting at the origin with zero accumulated shift. -/
def pZero : Particle :=
  { position := ⟨0, 0, 0⟩, rotation := ⟨0, 0, 0⟩, originalPos := ⟨0, 0, 0⟩,
    explosionTarget := ⟨5, 5, 5⟩, rotSpeed := ⟨0, 0, 0⟩,
    individualParallaxShift := ⟨0, 0, 0⟩, baseParallaxSensitivity := 1 }

/-- A particle carrying a non-zero individual parallax shift. -/
def pShifted : Particle := { pZero with individualParallaxShift := ⟨1, 1, 1⟩ }

/-- A configuration with reassemble-on-click disabled. -/
def cfgOff : Config :=
  { animationSpeed := 0.12, idleFloatSpeed := 0.005, idleFloatAmount := 0.02,
    reassembleOnClick := false, parallaxEnabled := true,
    parallaxStrengthX := 1.5, parallaxStrengthY := 4,
    parallaxPositionStrengthX := 1, parallaxPositionStrengthY := 0,
    explodedParallaxEnabled := true, explodedParallaxStrengthX := 1.2,
    explodedParallaxStrengthY := 1.2, explodedParallaxStrength := 0,
    hasShowcaseImages := false }

/-- The same configuration with reassemble-on-click enabled. -/
def cfgOn : Config := { cfgOff with reassembleOnClick := true }

/-- A world in the exploded state with one armed hold timer. -/
def wExploding : World :=
  { state := AnimState.EXPLODING, particles := [pZero], testParticles := [],
    returnTimer := some 7, liveHoldTimers := [7], liveShowTimers := [],
    nextTimerId := 8, showcaseBoxShouldShow := true }

/-- An idle world whose tree pool and test pool each hold one particle
with a non-zero accumulated shift. -/
def wIdle : World :=
  { state := AnimState.IDLE, particles := [pShifted], testParticles := [pShifted],
    returnTimer := none, liveHoldTimers := [], liveShowTimers := [],
    nextTimerId := 0, showcaseBoxShouldShow := false }

/-- A returning world with both particle pools empty. -/
def wReturningEmpty : World :=
  { state := AnimState.RETURNING, particles := [], testParticles := [],
    returnTimer := some 3, liveHoldTimers := [3], liveShowTimers := [],
    nextTimerId := 4, showcaseBoxShouldShow := false }

-- ## C4: triggerExplosion is a no-op while EXPLODING without reassemble-on-click

/-- C4: calling `triggerExplosion` while the state is `EXPLODING` and
`reassembleOnClick` is disabled changes nothing at all — the state, the
timers, every particle (in particular its individual parallax shift) and
the showcase-visible flag are untouched, since the function returns
before mutating anything. -/
theorem c4_trigger_noop_when_exploding (cfg : Config) (w : World)
    (hs : w.state = AnimState.EXPLODING) (hr : cfg.reassembleOnClick = false) :
    triggerExplosion cfg false w = w := by
  simp [triggerExplosion, hs, hr]

/-- Witness for C4 at a concrete configuration and world. -/
theorem c4_trigger_noop_when_exploding_witness :
    wExploding.state = AnimState.EXPLODING ∧ cfgOff.reassembleOnClick = false ∧
      triggerExplosion cfgOff false wExploding = wExploding :=
  ⟨rfl, rfl, c4_trigger_noop_when_exploding cfgOff wExploding rfl rfl⟩

-- ## C3: triggerExplosion while EXPLODING with reassemble-on-click forces RETURNING

/-- C3: calling `triggerExplosion` while the state is `EXPLODING` with
`reassembleOnClick` enabled immediately sets the state to `RETURNING`,
clears the showcase-visible flag, and cancels the pending hold timer: no
hold timer is left armed, so firing any timer id afterwards has no
effect. -/
theorem c3_trigger_reassemble (cfg : Config) (w : World) (hinv : TimerInv w)
    (hs : w.state = AnimState.EXPLODING) (hr : cfg.reassembleOnClick = true) :
    (triggerExplosion cfg false w).state = AnimState.RETURNING ∧
    (triggerExplosion cfg false w).showcaseBoxShouldShow = false ∧
    (triggerExplosion cfg false w).liveHoldTimers = [] ∧
    ∀ id, fireHoldTimer id (triggerExplosion cfg false w) = triggerExplosion cfg false w := by
  have hlive : (clearReturnTimer w).liveHoldTimers = [] := by
    rcases hinv with ⟨h1, _⟩
    cases hrt : w.returnTimer with
    | none => simp [clearReturnTimer, hrt, h1, hrt ▸ h1]
    | some id => simp [clearReturnTimer, hrt, hrt ▸ h1]
  have hred : triggerExplosion cfg false w =
      { clearReturnTimer w with showcaseBoxShouldShow := false,
                                state := AnimState.RETURNING } := by
    simp [triggerExplosion, hs, hr]
  refine ⟨by simp [hred], by simp [hred], by simp [hred, hlive], fun id => ?_⟩
  simp [fireHoldTimer, hred, hlive]

/-- Witness for C3 at a concrete configuration and world. -/
theorem c3_trigger_reassemble_witness :
    TimerInv wExploding ∧ wExploding.state = AnimState.EXPLODING ∧
      cfgOn.reassembleOnClick = true ∧
      ((triggerExplosion cfgOn false wExploding).state = AnimState.RETURNING ∧
       (triggerExplosion cfgOn false wExploding).showcaseBoxShouldShow = false ∧
       (triggerExplosion cfgOn false wExploding).liveHoldTimers = [] ∧
       ∀ id, fireHoldTimer id (triggerExplosion cfgOn false wExploding) =
         triggerExplosion cfgOn false wExploding) :=
  ⟨⟨rfl, by simp [wExploding]⟩, rfl, rfl,
    c3_trigger_reassemble cfgOn wExploding ⟨rfl, by simp [wExploding]⟩ rfl rfl⟩

-- ## C10: empty pools make the RETURNING convergence check pass vacuously

/-- C10: when both particle pools are empty, the all-returned check of
the frame update holds vacuously, so the very first frame executed in
the `RETURNING` state transitions to `IDLE`. -/
theorem c10_empty_pools_return_immediately (cfg : Config) (time : ℝ) (mouse : Vec2)
    (w : World) (hs : w.state = AnimState.RETURNING)
    (hp : w.particles = []) (ht : w.testParticles = []) :
    (frameParticlePhase cfg time mouse w).state = AnimState.IDLE := by
  simp [frameParticlePhase, hs, hp, ht, allReturnedAfter]

/-- Witness for C10 at a concrete world with empty pools. -/
theorem c10_empty_pools_return_immediately_witness :
    wReturningEmpty.state = AnimState.RETURNING ∧
      wReturningEmpty.particles = [] ∧ wReturningEmpty.testParticles = [] ∧
      (frameParticlePhase cfgOff 0 ⟨0, 0⟩ wReturningEmpty).state = AnimState.IDLE :=
  ⟨rfl, rfl, rfl,
    c10_empty_pools_return_immediately cfgOff 0 ⟨0, 0⟩ wReturningEmpty rfl rfl rfl⟩

-- ## C8: the group parallax position target in the exploded state

/-- C8 counterexample: with exploded parallax active, a unit mouse input
and the configured position strength `1`, the position target the frame
computes in the `EXPLODING` state is `1`, not `0` — the code applies
`CONFIG.parallaxPositionStrengthX/Y` in the exploded state exactly as in
the idle state, so the position target is not zeroed when exploded. -/
theorem c8_counterexample :
    (computeGroupParallaxTarget cfgOff AnimState.EXPLODING ⟨1, 1⟩).2.x ≠ 0 := by
  simp [computeGroupParallaxTarget, cfgOff]

/-- C8 (amended): when the state is `EXPLODING` and exploded parallax is
enabled, the group target rotation uses the exploded strengths, and the
group target position is the mouse input scaled by the same
`parallaxPositionStrengthX/Y` configuration as the idle state — it is
not forced to zero in the exploded state. -/
theorem c8_exploded_parallax_target (cfg : Config) (mouse : Vec2)
    (he : cfg.explodedParallaxEnabled = true) :
    computeGroupParallaxTarget cfg AnimState.EXPLODING mouse =
      (⟨mouse.y * cfg.explodedParallaxStrengthX, mouse.x * cfg.explodedParallaxStrengthY⟩,
       ⟨mouse.x * cfg.parallaxPositionStrengthX, mouse.y * cfg.parallaxPositionStrengthY⟩) := by
  simp [computeGroupParallaxTarget, he]

/-- Witness for the amended C8 at a concrete configuration and input. -/
theorem c8_exploded_parallax_target_witness :
    cfgOff.explodedParallaxEnabled = true ∧
      computeGroupParallaxTarget cfgOff AnimState.EXPLODING ⟨1, 1⟩ =
        (⟨1 * cfgOff.explodedParallaxStrengthX, 1 * cfgOff.explodedParallaxStrengthY⟩,
         ⟨1 * cfgOff.parallaxPositionStrengthX, 1 * cfgOff.parallaxPositionStrengthY⟩) :=
  ⟨rfl, c8_exploded_parallax_target cfgOff ⟨1, 1⟩ rfl⟩

-- ## C1: the RETURNING → IDLE convergence barrier

/-- C1: on a frame executed in the `RETURNING` state, the transition to
`IDLE` happens exactly when every particle of both pools ends the frame
within `0.1` world units of its resting position — it never happens
while some particle is farther away, and it happens on the very frame
the last particle comes within the threshold. -/
theorem c1_returning_to_idle_iff_converged (cfg : Config) (time : ℝ) (mouse : Vec2)
    (w : World) (hs : w.state = AnimState.RETURNING) :
    ((frameParticlePhase cfg time mouse w).state = AnimState.IDLE ↔
      ∀ p ∈ (frameParticlePhase cfg time mouse w).particles ++
            (frameParticlePhase cfg time mouse w).testParticles,
        dist3 p.position p.originalPos ≤ 0.1) := by
  classical
  set ps := w.particles.mapIdx fun i p => stepParticle cfg w.state time mouse i p with hps
  set ts := w.testParticles.mapIdx fun i p => stepParticle cfg w.state time mouse i p with hts
  have h1 : (frameParticlePhase cfg time mouse w).particles = ps := rfl
  have h2 : (frameParticlePhase cfg time mouse w).testParticles = ts := rfl
  have h3 : (frameParticlePhase cfg time mouse w).state =
      if w.state = AnimState.RETURNING ∧ allReturnedAfter w.state (ps ++ ts)
      then AnimState.IDLE else w.state := rfl
  rw [h1, h2, h3, hs]
  by_cases hall : ∀ p ∈ ps ++ ts, dist3 p.position p.originalPos ≤ 0.1
  · have hcond : allReturnedAfter AnimState.RETURNING (ps ++ ts) := by
      intro p hp _
      exact hall p hp
    rw [if_pos ⟨rfl, hcond⟩]
    exact iff_of_true rfl hall
  · have hcond : ¬(AnimState.RETURNING = AnimState.RETURNING ∧
        allReturnedAfter AnimState.RETURNING (ps ++ ts)) := by
      rintro ⟨-, h⟩
      exact hall fun p hp => h p hp rfl
    rw [if_neg hcond]
    exact iff_of_false (by simp) hall

/-- Witness for C1 at a concrete returning world. -/
theorem c1_returning_to_idle_iff_converged_witness :
    wReturningEmpty.state = AnimState.RETURNING ∧
      ((frameParticlePhase cfgOff 0 ⟨0, 0⟩ wReturningEmpty).state = AnimState.IDLE ↔
        ∀ p ∈ (frameParticlePhase cfgOff 0 ⟨0, 0⟩ wReturningEmpty).particles ++
              (frameParticlePhase cfgOff 0 ⟨0, 0⟩ wReturningEmpty).testParticles,
          dist3 p.position p.originalPos ≤ 0.1) :=
  ⟨rfl, c1_returning_to_idle_iff_converged cfgOff 0 ⟨0, 0⟩ wReturningEmpty rfl⟩

-- ## C2: triggering from IDLE/RETURNING

/-- Under the timer invariant, cancelling the pending hold timer leaves
no armed hold timer and touches no other field. -/
theorem clearReturnTimer_eq (w : World) (hinv : TimerInv w) :
    clearReturnTimer w = { w with liveHoldTimers := [], returnTimer := none } := by
  rcases hinv with ⟨h1, -⟩
  cases hrt : w.returnTimer with
  | none =>
      rw [hrt] at h1
      simp only [Option.toList] at h1
      cases w
      simp_all [clearReturnTimer]
  | some id =>
      rw [hrt] at h1
      simp only [Option.toList] at h1
      simp [clearReturnTimer, hrt, h1]

/-- C2 counterexample: the claim says the call resets the individual
parallax shift of **every** particle, but the code only walks the tree
pool (`particles.forEach`); a test-pool particle keeps its accumulated
shift.  Concretely, triggering from `IDLE` with one test particle whose
shift is `(1,1,1)` leaves that shift unchanged and non-zero. -/
theorem c2_counterexample :
    ((triggerExplosion cfgOff false wIdle).testParticles.map
        (·.individualParallaxShift)) = [⟨1, 1, 1⟩] ∧
      (⟨1, 1, 1⟩ : Vec3) ≠ (⟨0, 0, 0⟩ : Vec3) := by
  constructor
  · simp [triggerExplosion, wIdle, cfgOff, clearReturnTimer, armReturnTimer, armShowTimer,
      pShifted, pZero]
  · intro h
    have := congrArg Vec3.x h
    norm_num at this

/-- C2 (amended): triggering from `IDLE` or `RETURNING` cancels any
pending hold timer, sets the state to `EXPLODING`, resets the individual
parallax shift of every tree-pool particle (the test pool is left
untouched), and arms exactly one fresh hold timer: afterwards that timer
is the only live one, firing any previously pending timer id has no
effect, and firing the fresh timer sets the state to `RETURNING` and
clears the showcase-visible flag. -/
theorem c2_trigger_from_idle_or_returning (cfg : Config) (w : World) (hinv : TimerInv w)
    (hs : w.state = AnimState.IDLE ∨ w.state = AnimState.RETURNING) :
    (triggerExplosion cfg false w).state = AnimState.EXPLODING ∧
    (∀ p ∈ (triggerExplosion cfg false w).particles,
      p.individualParallaxShift = (⟨0, 0, 0⟩ : Vec3)) ∧
    (triggerExplosion cfg false w).testParticles = w.testParticles ∧
    ∃ nid, (triggerExplosion cfg false w).returnTimer = some nid ∧
      (triggerExplosion cfg false w).liveHoldTimers = [nid] ∧
      (∀ oldId ∈ w.liveHoldTimers,
        fireHoldTimer oldId (triggerExplosion cfg false w) = triggerExplosion cfg false w) ∧
      (fireHoldTimer nid (triggerExplosion cfg false w)).state = AnimState.RETURNING ∧
      (fireHoldTimer nid (triggerExplosion cfg false w)).showcaseBoxShouldShow = false ∧
      TimerInv (triggerExplosion cfg false w) := by
  have hstate : ¬(w.state = AnimState.EXPLODING ∧ cfg.reassembleOnClick) := by
    rcases hs with h | h <;> simp [h]
  have hguard : ¬(w.state ≠ AnimState.IDLE ∧ w.state ≠ AnimState.RETURNING) := by
    rcases hs with h | h <;> simp [h]
  have hfresh : ∀ oldId ∈ w.liveHoldTimers, oldId < w.nextTimerId := hinv.2
  have hred : triggerExplosion cfg false w =
      armReturnTimer (if cfg.hasShowcaseImages
        then armShowTimer { w with liveHoldTimers := [], returnTimer := none,
                                   state := AnimState.EXPLODING,
                                   particles := resetParallaxShifts w.particles }
        else { w with liveHoldTimers := [], returnTimer := none,
                      state := AnimState.EXPLODING,
                      particles := resetParallaxShifts w.particles }) := by
    simp only [triggerExplosion, Bool.false_eq_true, if_false, if_neg hstate, if_neg hguard,
      clearReturnTimer_eq w hinv]
  cases hsc : cfg.hasShowcaseImages with
  | false =>
      rw [hsc, if_neg Bool.false_ne_true] at hred
      refine ⟨by simp [hred, armReturnTimer], ?_, by simp [hred, armReturnTimer],
        w.nextTimerId, by simp [hred, armReturnTimer], by simp [hred, armReturnTimer],
        ?_, ?_, ?_, ?_⟩
      · intro p hp
        simp only [hred, armReturnTimer] at hp
        simp only [resetParallaxShifts, List.mem_map] at hp
        obtain ⟨q, -, hq⟩ := hp
        exact hq ▸ rfl
      · intro oldId hold
        have hne : oldId ≠ w.nextTimerId := Nat.ne_of_lt (hfresh oldId hold)
        simp [hred, armReturnTimer, fireHoldTimer, hne]
      · simp [hred, armReturnTimer, fireHoldTimer]
      · simp [hred, armReturnTimer, fireHoldTimer]
      · exact ⟨by simp [hred, armReturnTimer], by simp [hred, armReturnTimer]⟩
  | true =>
      rw [hsc, if_pos rfl] at hred
      refine ⟨by simp [hred, armReturnTimer, armShowTimer], ?_,
        by simp [hred, armReturnTimer, armShowTimer],
        w.nextTimerId + 1, by simp [hred, armReturnTimer, armShowTimer],
        by simp [hred, armReturnTimer, armShowTimer], ?_, ?_, ?_, ?_⟩
      · intro p hp
        simp only [hred, armReturnTimer, armShowTimer] at hp
        simp only [resetParallaxShifts, List.mem_map] at hp
        obtain ⟨q, -, hq⟩ := hp
        exact hq ▸ rfl
      · intro oldId hold
        have hne : oldId ≠ w.nextTimerId + 1 :=
          Nat.ne_of_lt (Nat.lt_succ_of_lt (hfresh oldId hold))
        simp [hred, armReturnTimer, armShowTimer, fireHoldTimer, hne]
      · simp [hred, armReturnTimer, armShowTimer, fireHoldTimer]
      · simp [hred, armReturnTimer, armShowTimer, fireHoldTimer]
      · exact ⟨by simp [hred, armReturnTimer, armShowTimer],
          by simp [hred, armReturnTimer, armShowTimer]⟩

/-- Witness for the amended C2 at a concrete world. -/
theorem c2_trigger_from_idle_or_returning_witness :
    TimerInv wIdle ∧ (wIdle.state = AnimState.IDLE ∨ wIdle.state = AnimState.RETURNING) ∧
      ((triggerExplosion cfgOff false wIdle).state = AnimState.EXPLODING ∧
       (∀ p ∈ (triggerExplosion cfgOff false wIdle).particles,
         p.individualParallaxShift = (⟨0, 0, 0⟩ : Vec3)) ∧
       (triggerExplosion cfgOff false wIdle).testParticles = wIdle.testParticles ∧
       ∃ nid, (triggerExplosion cfgOff false wIdle).returnTimer = some nid ∧
         (triggerExplosion cfgOff false wIdle).liveHoldTimers = [nid] ∧
         (∀ oldId ∈ wIdle.liveHoldTimers,
           fireHoldTimer oldId (triggerExplosion cfgOff false wIdle) =
             triggerExplosion cfgOff false wIdle) ∧
         (fireHoldTimer nid (triggerExplosion cfgOff false wIdle)).state =
           AnimState.RETURNING ∧
         (fireHoldTimer nid (triggerExplosion cfgOff false wIdle)).showcaseBoxShouldShow =
           false ∧
         TimerInv (triggerExplosion cfgOff false wIdle)) :=
  ⟨⟨rfl, by simp [wIdle]⟩, Or.inl rfl,
    c2_trigger_from_idle_or_returning cfgOff wIdle ⟨rfl, by simp [wIdle]⟩ (Or.inl rfl)⟩

-- ## C5: explosion targets lie in the configured shell

/-- Distance of a generated explosion point from the (offset) explosion
center: it is exactly the sampled shell radius. -/
theorem dist3_explosionTargetPoint (innerR outerR : ℝ) (c : Vec3) (d : ℝ × ℝ × ℝ)
    (hr : 0 ≤ innerR + d.2.2 * (outerR - innerR)) :
    dist3 (explosionTargetPoint innerR outerR c d) c =
      innerR + d.2.2 * (outerR - innerR) := by
  have hpt : explosionTargetPoint innerR outerR c d =
      ⟨c.x + (innerR + d.2.2 * (outerR - innerR)) * Real.sin (Real.arccos (2 * d.2.1 - 1)) *
          Real.cos (d.1 * π * 2),
       c.y + (innerR + d.2.2 * (outerR - innerR)) * Real.sin (Real.arccos (2 * d.2.1 - 1)) *
          Real.sin (d.1 * π * 2),
       c.z + (innerR + d.2.2 * (outerR - innerR)) * Real.cos (Real.arccos (2 * d.2.1 - 1))⟩ :=
    rfl
  rw [hpt]
  show Real.sqrt _ = _
  have hsq : (c.x + (innerR + d.2.2 * (outerR - innerR)) * Real.sin (Real.arccos (2 * d.2.1 - 1)) *
          Real.cos (d.1 * π * 2) - c.x) ^ 2 +
      (c.y + (innerR + d.2.2 * (outerR - innerR)) * Real.sin (Real.arccos (2 * d.2.1 - 1)) *
          Real.sin (d.1 * π * 2) - c.y) ^ 2 +
      (c.z + (innerR + d.2.2 * (outerR - innerR)) * Real.cos (Real.arccos (2 * d.2.1 - 1)) -
          c.z) ^ 2 =
      (innerR + d.2.2 * (outerR - innerR)) ^ 2 := by
    linear_combination
      ((innerR + d.2.2 * (outerR - innerR)) ^ 2 *
          Real.sin (Real.arccos (2 * d.2.1 - 1)) ^ 2) *
        Real.sin_sq_add_cos_sq (d.1 * π * 2) +
      (innerR + d.2.2 * (outerR - innerR)) ^ 2 *
        Real.sin_sq_add_cos_sq (Real.arccos (2 * d.2.1 - 1))
  rw [hsq, Real.sqrt_sq hr]

/-- C5: `generateExplosionTargets` returns exactly `count` points, each
at Euclidean distance within `[innerRadius, outerRadius]` of the center
plus the configured offset; a zero count yields the empty array, and a
degenerate shell `innerRadius = outerRadius = 10` with one requested
point yields a single point at distance exactly `10`. -/
theorem c5_generateExplosionTargets_shell (innerR outerR ox oy oz : ℝ) (center : Vec3)
    (count : ℕ) (draws : ℕ → ℝ × ℝ × ℝ)
    (hinner : 0 ≤ innerR) (hio : innerR ≤ outerR)
    (hd : ∀ i, 0 ≤ (draws i).2.2 ∧ (draws i).2.2 < 1) :
    (generateExplosionTargets innerR outerR ox oy oz center count draws).length = count ∧
    (∀ p ∈ generateExplosionTargets innerR outerR ox oy oz center count draws,
      innerR ≤ dist3 p ⟨center.x + ox, center.y + oy, center.z + oz⟩ ∧
      dist3 p ⟨center.x + ox, center.y + oy, center.z + oz⟩ ≤ outerR) ∧
    (count = 0 → generateExplosionTargets innerR outerR ox oy oz center count draws = []) ∧
    (count = 1 → innerR = 10 → outerR = 10 →
      ∃ p, generateExplosionTargets innerR outerR ox oy oz center count draws = [p] ∧
        dist3 p ⟨center.x + ox, center.y + oy, center.z + oz⟩ = 10) := by
  refine ⟨by simp [generateExplosionTargets], ?_, ?_, ?_⟩
  · intro p hp
    simp only [generateExplosionTargets, List.mem_map, List.mem_range] at hp
    obtain ⟨i, -, rfl⟩ := hp
    obtain ⟨hw0, hw1⟩ := hd i
    have hr : 0 ≤ innerR + (draws i).2.2 * (outerR - innerR) := by nlinarith
    rw [dist3_explosionTargetPoint innerR outerR _ _ hr]
    constructor <;> nlinarith
  · intro hc
    simp [generateExplosionTargets, hc]
  · rintro rfl rfl rfl
    obtain ⟨hw0, hw1⟩ := hd 0
    have hr : (0 : ℝ) ≤ 10 + (draws 0).2.2 * (10 - 10) := by nlinarith
    refine ⟨explosionTargetPoint 10 10 ⟨center.x + ox, center.y + oy, center.z + oz⟩ (draws 0),
      by simp [generateExplosionTargets, List.range_succ], ?_⟩
    rw [dist3_explosionTargetPoint 10 10 _ _ hr]
    ring

/-- Witness for C5: the degenerate shell of scenario D, one point at
distance exactly 10, plus the general conclusions, at concrete draws. -/
theorem c5_generateExplosionTargets_shell_witness :
    (0 : ℝ) ≤ 10 ∧ (10 : ℝ) ≤ 10 ∧
      (∀ i : ℕ, 0 ≤ ((fun _ : ℕ => ((0 : ℝ), (0 : ℝ), (0 : ℝ))) i).2.2 ∧
        ((fun _ : ℕ => ((0 : ℝ), (0 : ℝ), (0 : ℝ))) i).2.2 < 1) ∧
      ((generateExplosionTargets 10 10 0 0 0 ⟨0, 0, 0⟩ 1
          fun _ => ((0 : ℝ), (0 : ℝ), (0 : ℝ))).length = 1 ∧
       (∀ p ∈ generateExplosionTargets 10 10 0 0 0 ⟨0, 0, 0⟩ 1
          fun _ => ((0 : ℝ), (0 : ℝ), (0 : ℝ)),
         (10 : ℝ) ≤ dist3 p ⟨(0 : ℝ) + 0, (0 : ℝ) + 0, (0 : ℝ) + 0⟩ ∧
         dist3 p ⟨(0 : ℝ) + 0, (0 : ℝ) + 0, (0 : ℝ) + 0⟩ ≤ 10) ∧
       ((1 : ℕ) = 0 → generateExplosionTargets 10 10 0 0 0 ⟨0, 0, 0⟩ 1
          (fun _ => ((0 : ℝ), (0 : ℝ), (0 : ℝ))) = []) ∧
       ((1 : ℕ) = 1 → (10 : ℝ) = 10 → (10 : ℝ) = 10 →
         ∃ p, generateExplosionTargets 10 10 0 0 0 ⟨0, 0, 0⟩ 1
            (fun _ => ((0 : ℝ), (0 : ℝ), (0 : ℝ))) = [p] ∧
           dist3 p ⟨(0 : ℝ) + 0, (0 : ℝ) + 0, (0 : ℝ) + 0⟩ = 10)) :=
  ⟨by norm_num, by norm_num, fun i => by norm_num,
    c5_generateExplosionTargets_shell 10 10 0 0 0 ⟨0, 0, 0⟩ 1
      (fun _ => ((0 : ℝ), (0 : ℝ), (0 : ℝ))) (by norm_num) (by norm_num)
      (fun i => by norm_num)⟩

-- ## C6: resting positions lie on the hollow cone shell

/-- C6: for any random draws, the sampled resting position has
`y = coneHeight/2 - height` with `height = sqrt(u) * coneHeight` (hence
`y` within `[-coneHeight/2, coneHeight/2]`), and its horizontal distance
from the y-axis lies in the band
`[0.6, 1.0] * ((height / coneHeight) * coneRadius)` — the hollow outer
shell of the cone. -/
theorem c6_sampleTreePosition_hollow_cone (h R u t v : ℝ)
    (hh : 0 < h) (hR : 0 ≤ R) (hu0 : 0 ≤ u) (hu1 : u ≤ 1) (hv0 : 0 ≤ v) (hv1 : v ≤ 1) :
    ∃ x z : ℝ,
      sampleTreePosition h R u t v = (some x, some (h / 2 - Real.sqrt u * h), some z) ∧
      -(h / 2) ≤ h / 2 - Real.sqrt u * h ∧ h / 2 - Real.sqrt u * h ≤ h / 2 ∧
      0.6 * ((Real.sqrt u * h / h) * R) ≤ Real.sqrt (x ^ 2 + z ^ 2) ∧
      Real.sqrt (x ^ 2 + z ^ 2) ≤ 1 * ((Real.sqrt u * h / h) * R) := by
  have hne : h ≠ 0 := ne_of_gt hh
  have hs0 : 0 ≤ Real.sqrt u := Real.sqrt_nonneg u
  have hs1 : Real.sqrt u ≤ 1 := Real.sqrt_le_one.2 hu1
  have hB : 0 ≤ (Real.sqrt u * h / h) * R :=
    mul_nonneg (div_nonneg (mul_nonneg hs0 hh.le) hh.le) hR
  have hA : 0 ≤ (Real.sqrt u * h / h) * R * (0.6 + v * 0.4) := by nlinarith
  refine ⟨(Real.sqrt u * h / h) * R * (0.6 + v * 0.4) * Real.cos (t * π * 2),
          (Real.sqrt u * h / h) * R * (0.6 + v * 0.4) * Real.sin (t * π * 2),
          ?_, by nlinarith, by nlinarith, ?_, ?_⟩
  · simp only [sampleTreePosition, jsqrt, jmul, jdiv, jadd, jsub, jcos, jsin,
      if_neg (not_lt.2 hu0), if_neg hne, if_neg (by norm_num : (2 : ℝ) ≠ 0)]
  · rw [show ((Real.sqrt u * h / h) * R * (0.6 + v * 0.4) * Real.cos (t * π * 2)) ^ 2 +
        ((Real.sqrt u * h / h) * R * (0.6 + v * 0.4) * Real.sin (t * π * 2)) ^ 2 =
        ((Real.sqrt u * h / h) * R * (0.6 + v * 0.4)) ^ 2 from by
      linear_combination ((Real.sqrt u * h / h) * R * (0.6 + v * 0.4)) ^ 2 *
        Real.sin_sq_add_cos_sq (t * π * 2)]
    rw [Real.sqrt_sq hA]
    nlinarith
  · rw [show ((Real.sqrt u * h / h) * R * (0.6 + v * 0.4) * Real.cos (t * π * 2)) ^ 2 +
        ((Real.sqrt u * h / h) * R * (0.6 + v * 0.4) * Real.sin (t * π * 2)) ^ 2 =
        ((Real.sqrt u * h / h) * R * (0.6 + v * 0.4)) ^ 2 from by
      linear_combination ((Real.sqrt u * h / h) * R * (0.6 + v * 0.4)) ^ 2 *
        Real.sin_sq_add_cos_sq (t * π * 2)]
    rw [Real.sqrt_sq hA]
    nlinarith

/-- Witness for C6 at concrete geometry and draws. -/
theorem c6_sampleTreePosition_hollow_cone_witness :
    (0 : ℝ) < 2 ∧ (0 : ℝ) ≤ 1 ∧ (0 : ℝ) ≤ 1 ∧ (1 : ℝ) ≤ 1 ∧ (0 : ℝ) ≤ 0 ∧ (0 : ℝ) ≤ 1 ∧
      ∃ x z : ℝ,
        sampleTreePosition 2 1 1 0 0 = (some x, some (2 / 2 - Real.sqrt 1 * 2), some z) ∧
        -(2 / 2 : ℝ) ≤ 2 / 2 - Real.sqrt 1 * 2 ∧ (2 / 2 - Real.sqrt 1 * 2 : ℝ) ≤ 2 / 2 ∧
        0.6 * ((Real.sqrt 1 * 2 / 2) * 1) ≤ Real.sqrt (x ^ 2 + z ^ 2) ∧
        Real.sqrt (x ^ 2 + z ^ 2) ≤ 1 * ((Real.sqrt 1 * 2 / 2) * 1) :=
  ⟨by norm_num, by norm_num, by norm_num, by norm_num, by norm_num, by norm_num,
    c6_sampleTreePosition_hollow_cone 2 1 1 0 0 (by norm_num) (by norm_num) (by norm_num)
      (by norm_num) (by norm_num) (by norm_num)⟩

-- ## C9: degenerate geometry

/-- C9 counterexample: with tree height `0` (a degenerate configuration
the claim says must still yield finite, NaN-free points), the sampled
position has non-finite `x` and `z` components — `radiusAtHeight`
computes `(height / treeHeight) = 0 / 0 = NaN`, which propagates into
`x` and `z`, while `y` stays finite at `0`. -/
theorem c9_counterexample :
    sampleTreePosition 0 5 (1 / 4) 0 (1 / 2) = (none, some 0, none) := by
  simp only [sampleTreePosition, jsqrt, jmul, jdiv, jadd, jsub, jcos, jsin,
    if_neg (by norm_num : ¬(1 / 4 : ℝ) < 0), if_pos rfl, if_neg (by norm_num : (2 : ℝ) ≠ 0)]
  norm_num

/-- C9 (amended): degenerate geometry is accepted without raising, but
the two degenerate axes behave differently — with `treeRadius = 0` (and
non-zero height) every sampled position is finite and lies on the
central axis (`x = z = 0`), while with `treeHeight = 0` the `y`
coordinate is `0` but the `x` and `z` components are non-finite (NaN),
because `radiusAtHeight` divides by the zero height. -/
theorem c9_sampleTreePosition_degenerate (treeHeight treeRadius u t v : ℝ) (hu : 0 ≤ u) :
    (treeRadius = 0 → treeHeight ≠ 0 →
      sampleTreePosition treeHeight treeRadius u t v =
        (some 0, some (treeHeight / 2 - Real.sqrt u * treeHeight), some 0)) ∧
    (treeHeight = 0 →
      sampleTreePosition treeHeight treeRadius u t v = (none, some 0, none)) := by
  constructor
  · rintro rfl hne
    simp only [sampleTreePosition, jsqrt, jmul, jdiv, jadd, jsub, jcos, jsin,
      if_neg (not_lt.2 hu), if_neg hne, if_neg (by norm_num : (2 : ℝ) ≠ 0)]
    norm_num
  · rintro rfl
    simp only [sampleTreePosition, jsqrt, jmul, jdiv, jadd, jsub, jcos, jsin,
      if_neg (not_lt.2 hu), if_pos rfl, if_neg (by norm_num : (2 : ℝ) ≠ 0)]
    norm_num

/-- Witness for the amended C9 at concrete degenerate configurations. -/
theorem c9_sampleTreePosition_degenerate_witness :
    (0 : ℝ) ≤ 1 / 4 ∧
      (((0 : ℝ) = 0 → (3 : ℝ) ≠ 0 →
        sampleTreePosition 3 0 (1 / 4) 0 (1 / 2) =
          (some 0, some (3 / 2 - Real.sqrt (1 / 4) * 3), some 0)) ∧
       ((3 : ℝ) = 0 →
        sampleTreePosition 3 0 (1 / 4) 0 (1 / 2) = (none, some 0, none))) :=
  ⟨by norm_num, c9_sampleTreePosition_degenerate 3 0 (1 / 4) 0 (1 / 2) (by norm_num)⟩

-- ## C7: index-aligned consumption of explosion targets

/-- The explosion targets of one definition's creation loop: the slots
`start .. start + count - 1` of the pre-generated array, in order. -/
theorem createCountParticles_map_target (th tr : ℝ) (targets : List Vec3)
    (posDraws : ℕ → ℝ × ℝ × ℝ) (start count : ℕ) :
    (createCountParticles th tr targets posDraws start count).map (·.explosionTarget) =
      (List.range count).map fun j => targets[start + j]? := by
  simp [createCountParticles, List.map_map, Function.comp]

/-- Each definition creates exactly its requested number of particles. -/
theorem createCountParticles_length (th tr : ℝ) (targets : List Vec3)
    (posDraws : ℕ → ℝ × ℝ × ℝ) (start count : ℕ) :
    (createCountParticles th tr targets posDraws start count).length = count := by
  simp [createCountParticles]

/-- The full creation loop produces one particle per unit of the summed
counts. -/
theorem createFromDefs_length (th tr : ℝ) (targets : List Vec3)
    (posDraws : ℕ → ℝ × ℝ × ℝ) (counts : List ℕ) (idx : ℕ) :
    (createFromDefs th tr targets posDraws counts idx).length = counts.sum := by
  induction counts generalizing idx with
  | nil => simp [createFromDefs]
  | cons c rest ih => simp [createFromDefs, createCountParticles, ih]

/-- The running index walks the target array contiguously: the creation
loop started at index `idx` consumes the slots
`idx .. idx + counts.sum - 1` in order. -/
theorem createFromDefs_map_target (th tr : ℝ) (targets : List Vec3)
    (posDraws : ℕ → ℝ × ℝ × ℝ) (counts : List ℕ) (idx : ℕ) :
    (createFromDefs th tr targets posDraws counts idx).map (·.explosionTarget) =
      (List.range counts.sum).map fun j => targets[idx + j]? := by
  induction counts generalizing idx with
  | nil => simp [createFromDefs]
  | cons c rest ih =>
      rw [show createFromDefs th tr targets posDraws (c :: rest) idx =
          createCountParticles th tr targets posDraws idx c ++
            createFromDefs th tr targets posDraws rest (idx + c) from rfl]
      rw [List.map_append, createCountParticles_map_target, ih, List.sum_cons,
        List.range_add, List.map_append, List.map_map]
      congr 1
      apply List.map_congr_left
      intro j _
      simp [Function.comp, Nat.add_assoc]

/-- Reading a list through in-range positional lookups reproduces the
list. -/
theorem range_map_getElem (l : List Vec3) :
    (List.range l.length).map (fun j => l[j]?) = l.map some := by
  induction l with
  | nil => simp
  | cons a tl ih =>
      rw [List.length_cons, List.range_succ_eq_map, List.map_cons, List.map_map]
      simp only [List.getElem?_cons_zero, List.map_cons]
      congr 1
      rw [← ih]
      apply List.map_congr_left
      intro j _
      simp [Function.comp]

/-- C7: rebuilding the pool from a list of object definitions
pre-generates exactly `K = Σ counts` explosion targets, creates exactly
`K` particles, and assigns the `i`-th created particle (one running
index across all definitions) the `i`-th target — every target is
consumed exactly once, in order, with no gaps and no reuse. -/
theorem c7_rebuild_index_alignment (th tr innerR outerR ox oy oz : ℝ) (center : Vec3)
    (counts : List ℕ) (targetDraws posDraws : ℕ → ℝ × ℝ × ℝ) :
    (generateExplosionTargets innerR outerR ox oy oz center counts.sum targetDraws).length
        = counts.sum ∧
    (rebuildTreeParticles th tr innerR outerR ox oy oz center counts targetDraws
        posDraws).length = counts.sum ∧
    (rebuildTreeParticles th tr innerR outerR ox oy oz center counts targetDraws
        posDraws).map (·.explosionTarget) =
      (generateExplosionTargets innerR outerR ox oy oz center counts.sum targetDraws).map
        some := by
  have hlen : (generateExplosionTargets innerR outerR ox oy oz center counts.sum
      targetDraws).length = counts.sum := by
    simp [generateExplosionTargets]
  refine ⟨hlen, ?_, ?_⟩
  · exact createFromDefs_length th tr _ posDraws counts 0
  · show (createFromDefs th tr _ posDraws counts 0).map (·.explosionTarget) = _
    rw [createFromDefs_map_target]
    simp only [Nat.zero_add]
    have hread := range_map_getElem
      (generateExplosionTargets innerR outerR ox oy oz center counts.sum targetDraws)
    rw [hlen] at hread
    exact hread

end YZTree
